import Mathlib

/-!
Verification development for the WiFi Book Transfer CLI client
(`src/list_books.py` and its Spanish twin `src/listar_libros.py`).

The two scripts share identical token-resolution, upload, delete and
download logic; `list_books.py` additionally performs local-subnet
discovery.  External effects (HTTP requests, the filesystem, `time`,
`input()`) are modelled by an explicit environment record of oracles, and
every network request the client issues is recorded as an `Event` so that
"no network call is made" claims can be stated as trace facts.
-/

namespace WifiBook

/-! ## Data model -/

/-- An entry of the remote catalog: a JSON object with optional `name` and
`size` keys (the Python code reads them with `item.get("name", ...)`, so
either key may be absent). -/
structure Book where
  name : Option String
  size : Option String
deriving DecidableEq

/-! ## Python string primitives

The scripts use `str.strip`, `str.lower`, `str.isdigit`, `int(...)`,
`str.endswith`, `os.path.basename` and the `in` substring test.  These are
modelled on a documented fragment of Unicode sufficient for the claims:
ASCII, the Latin-1 letter `Í` (for the confirmation token `sí`), the
Arabic-Indic decimal digits U+0660–U+0669 (CPython `str.isdigit` and
`int()` both accept them) and the superscript digits `¹²³`
(`str.isdigit` accepts them — Unicode `Numeric_Type=Digit` — but `int()`
rejects them with `ValueError`).  Characters outside the fragment behave
as ordinary non-digit, non-cased characters. -/

/-- Whitespace as stripped by Python `str.strip()` (ASCII fragment). -/
def isPySpace (c : Char) : Bool :=
  c = ' ' || c = '\t' || c = '\n' || c = '\r' || c = '\x0b' || c = '\x0c'

/-- Python `s.strip()`: remove leading and trailing whitespace. -/
def pyStrip (s : String) : String :=
  String.mk (((s.toList.dropWhile isPySpace).reverse.dropWhile isPySpace).reverse)

/-- Python `str.lower` on one character (ASCII letters, plus `Í` → `í`;
other characters of the fragment are unchanged). -/
def pyLowerChar (c : Char) : Char :=
  if 'A' ≤ c ∧ c ≤ 'Z' then Char.ofNat (c.toNat + 32)
  else if c = 'Í' then 'í'
  else c

/-- Python `s.lower()` on the modelled fragment. -/
def pyLower (s : String) : String :=
  String.mk (s.toList.map pyLowerChar)

/-- Decimal value of a character in Unicode category Nd (fragment: ASCII
`0`-`9` and Arabic-Indic `٠`-`٩`); exactly these characters are accepted
by Python `int()`. -/
def pyCharDecimalVal (c : Char) : Option Nat :=
  if '0' ≤ c ∧ c ≤ '9' then some (c.toNat - '0'.toNat)
  else if '٠' ≤ c ∧ c ≤ '٩' then some (c.toNat - '٠'.toNat)
  else none

/-- Python `str.isdigit` on one character: true for `Numeric_Type=Decimal`
characters and for `Numeric_Type=Digit` characters such as the
superscripts `¹`, `²`, `³` (fragment). -/
def pyCharIsDigit (c : Char) : Bool :=
  (pyCharDecimalVal c).isSome || c = '¹' || c = '²' || c = '³'

/-- Python `s.isdigit()`: nonempty and every character is a digit. -/
def pyIsDigit (s : String) : Bool :=
  !s.isEmpty && s.toList.all pyCharIsDigit

/-- Python `int(s)` for a string that already passed `s.isdigit()`:
succeeds (with the base-10 value) iff every character is a decimal digit
(category Nd); a `Numeric_Type=Digit`-only character such as `²` makes
`int()` raise `ValueError`, modelled as `none`. -/
def pyIntOfDigits (s : String) : Option Nat :=
  (s.toList.mapM pyCharDecimalVal).map (List.foldl (fun a d => 10 * a + d) 0)

/-- Python `os.path.basename` (POSIX): the part after the last `/`. -/
def basename (p : String) : String :=
  String.mk ((p.toList.reverse.takeWhile (fun c => c ≠ '/')).reverse)

/-- Occurrence of `pat` as a contiguous sublist of a character list. -/
def hasSubstring (pat : List Char) : List Char → Bool
  | [] => pat.isEmpty
  | c :: t => pat.isPrefixOf (c :: t) || hasSubstring pat t

/-- Python substring test `pat in s`. -/
def strContains (s pat : String) : Bool :=
  hasSubstring pat.toList s.toList

/-- Python `s.split(".")`: split a character list at every `.`. -/
def splitDots : List Char → List (List Char)
  | [] => [[]]
  | c :: t =>
    if c = '.' then [] :: splitDots t
    else
      match splitDots t with
      | [] => [[c]]
      | h :: r => (c :: h) :: r

/-- Python `s.split(".")` on strings. -/
def pySplitDot (s : String) : List String :=
  (splitDots s.toList).map String.mk

/-- Python `".".join(parts)`. -/
def joinDots : List String → String
  | [] => ""
  | [p] => p
  | p :: rest => p ++ "." ++ joinDots rest

/-! ## Network events and environment -/

/-- One network request issued by the client (discovery probes are modelled
separately inside `discover_servers`). -/
inductive Event where
  | listGet (url : String)
  | uploadPost (name : String)
  | deletePost (name : String)
  | downloadGet (name : String)
deriving DecidableEq

/-- Outcome of the catalog-listing GET in `get_book_list` /
`obtener_lista_libros`: a `requests` exception (connection failure,
timeout, or non-2xx via `raise_for_status`), a `ValueError` from
`response.json()`, or a parsed JSON array of entries. -/
inductive FetchResp where
  | reqError
  | parseError
  | ok (books : List Book)
deriving DecidableEq

/-- Response of a discovery probe: HTTP status and body text. -/
structure ProbeResp where
  status : Nat
  body : String
deriving DecidableEq

/-- Oracles for every external effect of one run. -/
structure Env where
  /-- local outbound IP learnt from the UDP-socket trick; `none` models the
  `OSError` fallback branch of `_get_subnet_ips`. -/
  localIp : Option String
  /-- discovery probe result per candidate IP; `none` models a
  `requests` exception (timeout, refused). -/
  probe : String → Option ProbeResp
  /-- Python `int(time.time() * 1000)` — the cache-busting value. -/
  now_ms : Nat
  /-- result of the catalog-listing GET. -/
  fetchResp : FetchResp
  /-- Python `os.path.isfile`. -/
  isfile : String → Bool
  /-- Python `os.path.expanduser`. -/
  expanduser : String → String
  /-- result of the multipart upload POST for a local path (`True` model of
  the `try` block around `open` + `requests.post` + `raise_for_status`). -/
  uploadPostOk : String → Bool
  /-- the line returned by `input()` at the delete confirmation prompt. -/
  confirmInput : String
  /-- result of the delete POST for a remote name. -/
  deletePostOk : String → Bool
  /-- Python `os.path.isdir`. -/
  isdir : String → Bool
  /-- result of the download GET (and local save) for a remote name. -/
  downloadGetOk : String → Bool

/-! ## Token resolution (`main`, delete/download blocks of both scripts) -/

/-- Result of resolving a (stripped) delete/download token against the
fetched catalog, as the two identical `main` snippets do. -/
inductive Resolved where
  /-- a concrete remote name was selected. -/
  | ok (name : String)
  /-- `print("Invalid index. Use a number between 1 and {n}.")`, return 1. -/
  | rangeError (n : Nat)
  /-- `print("Book '{name}' not found.")`, return 1. -/
  | notFound (name : String)
  /-- uncaught `ValueError` from `int(target)` (a token that passes
  `isdigit` but contains a non-decimal digit character such as `²`). -/
  | crash
deriving DecidableEq

/-- The token-resolution snippet shared by the delete and download blocks
of both `main` functions: `target.isdigit()` selects the 1-based index
branch with bounds check `1 <= idx <= len(books)`, otherwise the token is
matched literally against `book.get("name")`. -/
def resolveToken (books : List Book) (target : String) : Resolved :=
  if pyIsDigit target then
    match pyIntOfDigits target with
    | none => .crash
    | some idx =>
      if 1 ≤ idx ∧ idx ≤ books.length then
        .ok ((books.getD (idx - 1) (Book.mk none none)).name.getD "")
      else .rangeError books.length
  else if books.any (fun b => b.name == some target) then .ok target
  else .notFound target

/-! ## Discovery (`list_books.py` lines 19-63) -/

/-- Fixed service port `WIFI_BOOK_PORT = 8080`. -/
def WIFI_BOOK_PORT : Nat := 8080

/-- `_get_subnet_ips`: when the UDP-socket trick yields a local IP, the
candidates are `base.1` … `base.254` of its /24 (`range(1, 255)`); on
`OSError` the fallback is the fixed list `192.168.{0,1}.{1..254}`; a local
IP without exactly four dot-separated parts yields `[]`. -/
def _get_subnet_ips (localIp : Option String) : List String :=
  match localIp with
  | none =>
    ([0, 1].flatMap fun a =>
      (List.range' 1 254).map fun b => "192.168." ++ toString a ++ "." ++ toString b)
  | some local_ip =>
    let parts := pySplitDot local_ip
    if parts.length ≠ 4 then []
    else
      let base := joinDots (parts.take 3)
      (List.range' 1 254).map fun i => base ++ "." ++ toString i

/-- `_check_host`: a candidate is confirmed (its IP returned) iff the probe
succeeds with status 200 and the body contains the fingerprint
`"WiFi Book Transfer"`; any `requests` exception yields `None`. -/
def _check_host (probe : String → Option ProbeResp) (ip : String) : Option String :=
  match probe ip with
  | none => none
  | some r =>
    if r.status = 200 ∧ strContains r.body "WiFi Book Transfer" then some ip else none

/-- `discover_servers`: probe every candidate (the thread pool's completion
order is irrelevant because the collected list is sorted) and return the
confirmed IPs sorted lexicographically. -/
def discover_servers (env : Env) : List String :=
  List.mergeSort
    ((_get_subnet_ips env.localIp).filterMap (_check_host env.probe))
    (fun a b => decide (a ≤ b))

/-! ## Transport operations -/

/-- `get_book_list` / `obtener_lista_libros`: GET `base_url ++ "/files?" ++
<millisecond timestamp>` (the cache-buster); any `requests` exception or
JSON `ValueError` is caught, printed, and turned into the empty list. -/
def get_book_list (env : Env) (base_url : String) : List Book × List Event :=
  let url := base_url ++ "/files?" ++ toString env.now_ms
  match env.fetchResp with
  | .reqError => ([], [.listGet url])
  | .parseError => ([], [.listGet url])
  | .ok books => (books, [.listGet url])

/-- The upload allow-list `formats` (shared verbatim by both scripts). -/
def formats : List String :=
  ["epub", "txt", "pdf", "mobi", "azw", "azw3", "fb2", "doc", "docx",
   "htm", "html", "cbz", "cbt", "cbr", "jvu", "djvu", "djv", "rtf",
   "zip", "rar"]

/-- The extension check `name.lower().endswith(tuple(f".{ext}" for ext in
formats))`. -/
def allowedName (name : String) : Bool :=
  formats.any fun ext => ("." ++ ext).toList.isSuffixOf (pyLower name).toList

/-- `upload_book` / `subir_libro`: reject a non-file path, then reject a
disallowed extension — both before any network traffic; otherwise run the
`try` block (`open` + multipart POST + `raise_for_status`), modelled as one
oracle call whose event records the attempted POST. -/
def upload_book (env : Env) (path : String) : Bool × List Event :=
  if env.isfile path = false then (false, [])
  else if allowedName (basename path) = false then (false, [])
  else (env.uploadPostOk path, [.uploadPost (basename path)])

/-- `delete_book` / `borrar_libro`: POST `_method=delete` to the file's
URL; any `requests` exception yields `False`. -/
def delete_book (env : Env) (name : String) : Bool × List Event :=
  (env.deletePostOk name, [.deletePost name])

/-- `download_book` / `descargar_libro`: GET the file's URL and stream it
to `directory/name`; `requests` exceptions and `OSError` both yield
`False`. -/
def download_book (env : Env) (name : String) : Bool × List Event :=
  (env.downloadGetOk name, [.downloadGet name])

/-! ## The `main` workflow -/

/-- How a run ends: `sys.exit(main())` with `main`'s return value, or an
uncaught exception (traceback). -/
inductive Outcome where
  | exit (code : Nat)
  | crashed
deriving DecidableEq

/-- Parsed CLI flags of `list_books.py` (argparse defaults: `output = "."`;
`upload` is `None` or the nonempty list collected by `nargs="+"`). -/
structure Args where
  delete : Option String
  download : Option String
  output : String
  upload : Option (List String)
  host : Option String

/-- Python truthiness of an optional string flag (`None` and `""` falsy). -/
def strTruthy (o : Option String) : Bool :=
  match o with
  | none => false
  | some s => !s.isEmpty

/-- Python truthiness of the `upload` flag (`None` and `[]` falsy). -/
def listTruthy (o : Option (List String)) : Bool :=
  match o with
  | none => false
  | some l => !l.isEmpty

/-- Base-URL selection of `list_books.py` `main`: an explicit (stripped)
`--host` wins; otherwise discovery runs and its first (lexicographically
smallest) hit is used; no hit means `none` (report and `return 1`). -/
def baseUrlOf (env : Env) (args : Args) : Option String :=
  if strTruthy args.host then
    some ("http://" ++ pyStrip (args.host.getD "") ++ ":" ++ toString WIFI_BOOK_PORT)
  else
    match discover_servers env with
    | [] => none
    | s :: _ => some ("http://" ++ s ++ ":" ++ toString WIFI_BOOK_PORT)

/-- The `--upload` loop: strip and `expanduser` each path in order, upload
it, and `return 1` at the first failure (remaining paths untouched).
`none` means the loop completed and `main` continues. -/
def uploadLoop (env : Env) (paths : List String) : Option Outcome × List Event :=
  match paths with
  | [] => (none, [])
  | p :: rest =>
    let path := env.expanduser (pyStrip p)
    let res := upload_book env path
    if res.1 then
      let r := uploadLoop env rest
      (r.1, res.2 ++ r.2)
    else (some (.exit 1), res.2)

/-- The five affirmative confirmation tokens of both scripts. -/
def confirmAccepted (confirm : String) : Bool :=
  confirm = "s" || confirm = "si" || confirm = "sí" || confirm = "y" || confirm = "yes"

/-- The `--delete` block (guarded in `main` by `args.delete and books`):
resolve the stripped token, on resolution failure `return 1`; otherwise
prompt, and only a stripped+lowercased input among the affirmative tokens
triggers the delete POST (whose failure gives `return 1`); any other input
prints `Cancelled.` and falls through. -/
def deleteBlock (env : Env) (books : List Book) (rawTarget : String) :
    Option Outcome × List Event :=
  match resolveToken books (pyStrip rawTarget) with
  | .crash => (some .crashed, [])
  | .rangeError _ => (some (.exit 1), [])
  | .notFound _ => (some (.exit 1), [])
  | .ok name =>
    if confirmAccepted (pyLower (pyStrip env.confirmInput)) then
      let res := delete_book env name
      if res.1 then (none, res.2) else (some (.exit 1), res.2)
    else (none, [])

/-- The `--download` block (guarded in `main` by `args.download and
books`): resolve the stripped token (`return 1` on failure), then require
the expanded output directory to exist (`return 1` without any network
call), then download (`return 1` on failure). -/
def downloadBlock (env : Env) (books : List Book) (rawTarget output : String) :
    Option Outcome × List Event :=
  match resolveToken books (pyStrip rawTarget) with
  | .crash => (some .crashed, [])
  | .rangeError _ => (some (.exit 1), [])
  | .notFound _ => (some (.exit 1), [])
  | .ok name =>
    let output_dir := env.expanduser output
    if env.isdir output_dir = false then (some (.exit 1), [])
    else
      let res := download_book env name
      if res.1 then (none, res.2) else (some (.exit 1), res.2)

/-- The part of `main` that both scripts share verbatim (after base-URL
selection): fetch the catalog once, `return 1` when it is empty and no
upload was requested, then run the upload loop, the delete block and the
download block in order, each early `return` aborting the rest;
`return 0` at the end. -/
def catalogPhase (env : Env) (base_url : String)
    (delete download : Option String) (output : String)
    (upload : Option (List String)) : Outcome × List Event :=
  let fetched := get_book_list env base_url
  let books := fetched.1
  let ev0 := fetched.2
  if books.isEmpty && !listTruthy upload then (.exit 1, ev0)
  else
    let r1 :=
      if listTruthy upload then uploadLoop env (upload.getD [])
      else (none, [])
    match r1.1 with
    | some o => (o, ev0 ++ r1.2)
    | none =>
      let r2 :=
        if strTruthy delete && !books.isEmpty then
          deleteBlock env books (delete.getD "")
        else (none, [])
      match r2.1 with
      | some o => (o, ev0 ++ r1.2 ++ r2.2)
      | none =>
        let r3 :=
          if strTruthy download && !books.isEmpty then
            downloadBlock env books (download.getD "") output
          else (none, [])
        match r3.1 with
        | some o => (o, ev0 ++ r1.2 ++ r2.2 ++ r3.2)
        | none => (.exit 0, ev0 ++ r1.2 ++ r2.2 ++ r3.2)

/-- `main` of `list_books.py`: pick the base URL (report and exit 1 when
discovery finds nothing), then the shared catalog phase. -/
def mainRun (env : Env) (args : Args) : Outcome × List Event :=
  match baseUrlOf env args with
  | none => (.exit 1, [])
  | some base_url =>
    catalogPhase env base_url args.delete args.download args.output args.upload

/-- Fixed base URL of `listar_libros.py`. -/
def BASE_URL : String := "http://192.168.1.196:8080"

/-- Parsed CLI flags of `listar_libros.py` (no `--host`). -/
structure ArgsEs where
  delete : Option String
  download : Option String
  output : String
  upload : Option (List String)

/-- `main` of `listar_libros.py`: the shared catalog phase against the
fixed `BASE_URL` (no discovery). -/
def mainRunEs (env : Env) (args : ArgsEs) : Outcome × List Event :=
  catalogPhase env BASE_URL args.delete args.download args.output args.upload

/-! ## Concrete instances for the closed theorems -/

/-- Two-entry demo catalog. -/
def demoBooks : List Book :=
  [Book.mk (some "a.pdf") (some "1MB"), Book.mk (some "b.epub") (some "2MB")]

/-- Three-entry demo catalog (no entry is named `٣`). -/
def demoBooks3 : List Book :=
  [Book.mk (some "a.pdf") (some "1MB"), Book.mk (some "b.epub") none,
   Book.mk (some "c.txt") none]

/-- Demo probe oracle: only `10.0.0.3` answers with status 200 and the
service fingerprint in the body. -/
def demoProbe : String → Option ProbeResp :=
  fun ip =>
    if ip = "10.0.0.3" then some (ProbeResp.mk 200 "<html>WiFi Book Transfer</html>")
    else none

/-- Base demo environment: catalog `demoBooks`, every filesystem and
network oracle succeeding, confirmation input `"y"`, clock at 1234 ms.
Fields: localIp, probe, now_ms, fetchResp, isfile, expanduser,
uploadPostOk, confirmInput, deletePostOk, isdir, downloadGetOk. -/
def envA : Env :=
  Env.mk (some "10.0.0.7") demoProbe 1234 (FetchResp.ok demoBooks)
    (fun _ => true) (fun s => s) (fun _ => true) "y" (fun _ => true)
    (fun _ => true) (fun _ => true)

/-- Like `envA` but the confirmation input is `" y "` (whitespace around
the affirmative token). -/
def envB : Env :=
  Env.mk (some "10.0.0.7") demoProbe 1234 (FetchResp.ok demoBooks)
    (fun _ => true) (fun s => s) (fun _ => true) " y " (fun _ => true)
    (fun _ => true) (fun _ => true)

/-- Like `envA` but the confirmation input is `"YES"`. -/
def envC : Env :=
  Env.mk (some "10.0.0.7") demoProbe 1234 (FetchResp.ok demoBooks)
    (fun _ => true) (fun s => s) (fun _ => true) "YES" (fun _ => true)
    (fun _ => true) (fun _ => true)

/-- Like `envA` but the catalog GET fails with a `requests` exception. -/
def envD : Env :=
  Env.mk (some "10.0.0.7") demoProbe 1234 FetchResp.reqError
    (fun _ => true) (fun s => s) (fun _ => true) "y" (fun _ => true)
    (fun _ => true) (fun _ => true)

/-- Like `envA` but `os.path.isdir` is false for every path. -/
def envF : Env :=
  Env.mk (some "10.0.0.7") demoProbe 1234 (FetchResp.ok demoBooks)
    (fun _ => true) (fun s => s) (fun _ => true) "y" (fun _ => true)
    (fun _ => false) (fun _ => true)

/-- Like `envA` but the fetched catalog is empty. -/
def envG : Env :=
  Env.mk (some "10.0.0.7") demoProbe 1234 (FetchResp.ok [])
    (fun _ => true) (fun s => s) (fun _ => true) "y" (fun _ => true)
    (fun _ => true) (fun _ => true)

/-- Demo CLI arguments: plain listing against an explicit host.
Fields: delete, download, output, upload, host. -/
def argsA : Args :=
  Args.mk none none "." none (some "192.168.1.196")

/-- Demo CLI arguments for the fail-fast upload run: three uploads, the
second of an unsupported extension. -/
def argsU : Args :=
  Args.mk none none "." (some ["ok1.pdf", "bad.xyz", "never.pdf"])
    (some "192.168.1.196")

/-- Demo CLI arguments: download token `"1"` to output directory `"out"`,
no upload, no delete. -/
def argsD : Args :=
  Args.mk none (some "1") "out" none (some "192.168.1.196")

/-- Demo CLI arguments: upload one file while also requesting a delete and
a download that can never be resolved. -/
def argsG : Args :=
  Args.mk (some "99") (some "nonexistent.pdf") "." (some ["ok1.pdf"])
    (some "192.168.1.196")

/-! ## Helper lemmas -/

theorem dropWhile_eq_self_of_not {α} (p : α → Bool) (l : List α)
    (h : ∀ a ∈ l, p a = false) : l.dropWhile p = l := by
  cases l with
  | nil => rfl
  | cons a t =>
    have ha := h a (List.mem_cons_self a t)
    simp [List.dropWhile_cons, ha]

/-- A string with no leading or trailing whitespace — in particular any
string with no whitespace at all — is unchanged by `strip()`. -/
theorem pyStrip_eq_self {s : String} (h : ∀ c ∈ s.toList, isPySpace c = false) :
    pyStrip s = s := by
  unfold pyStrip
  rw [dropWhile_eq_self_of_not _ _ h,
    dropWhile_eq_self_of_not _ _ (fun a ha => h a (List.mem_reverse.mp ha)),
    List.reverse_reverse]
  cases s
  rfl

theorem pyCharDecimalVal_ascii {c : Char} (h1 : '0' ≤ c) (h2 : c ≤ '9') :
    pyCharDecimalVal c = some (c.toNat - '0'.toNat) := by
  unfold pyCharDecimalVal
  rw [if_pos ⟨h1, h2⟩]

theorem pyCharIsDigit_ascii {c : Char} (h1 : '0' ≤ c) (h2 : c ≤ '9') :
    pyCharIsDigit c = true := by
  unfold pyCharIsDigit
  rw [pyCharDecimalVal_ascii h1 h2]
  rfl

theorem mapM_isSome_of {α β} (f : α → Option β) (l : List α)
    (h : ∀ a ∈ l, (f a).isSome = true) : ∃ bs, l.mapM f = some bs := by
  induction l with
  | nil => exact ⟨[], rfl⟩
  | cons a t ih =>
    obtain ⟨b, hb⟩ := Option.isSome_iff_exists.mp (h a (List.mem_cons_self a t))
    obtain ⟨bs, hbs⟩ := ih (fun x hx => h x (List.mem_cons_of_mem a hx))
    refine ⟨b :: bs, ?_⟩
    rw [← List.mapM'_eq_mapM] at hbs ⊢
    simp [List.mapM'_cons, hb, hbs]

/-- A nonempty all-ASCII-digit string passes Python `isdigit`. -/
theorem pyIsDigit_of_ascii {s : String} (hne : s ≠ "")
    (h : ∀ c ∈ s.toList, '0' ≤ c ∧ c ≤ '9') : pyIsDigit s = true := by
  unfold pyIsDigit
  have h1 : s.isEmpty = false := by
    rw [← Bool.not_eq_true]
    intro hh
    exact hne ((String.isEmpty_iff s).mp hh)
  rw [h1]
  simp only [Bool.not_false, Bool.true_and, List.all_eq_true]
  intro c hc
  exact pyCharIsDigit_ascii (h c hc).1 (h c hc).2

/-- On an all-ASCII-digit string, Python `int()` succeeds. -/
theorem pyIntOfDigits_ascii_isSome {s : String}
    (h : ∀ c ∈ s.toList, '0' ≤ c ∧ c ≤ '9') : ∃ k, pyIntOfDigits s = some k := by
  obtain ⟨ds, hds⟩ := mapM_isSome_of pyCharDecimalVal s.toList (fun c hc => by
    rw [pyCharDecimalVal_ascii (h c hc).1 (h c hc).2]
    rfl)
  refine ⟨ds.foldl (fun a d => 10 * a + d) 0, ?_⟩
  unfold pyIntOfDigits
  rw [hds]
  rfl

/-- Unfolding of `resolveToken` on the index branch. -/
theorem resolveToken_digit {books : List Book} {target : String} {k : Nat}
    (hd : pyIsDigit target = true) (hk : pyIntOfDigits target = some k) :
    resolveToken books target =
      if 1 ≤ k ∧ k ≤ books.length then
        .ok ((books.getD (k - 1) (Book.mk none none)).name.getD "")
      else .rangeError books.length := by
  unfold resolveToken
  simp only [hd, hk, if_true]

/-- Unfolding of `resolveToken` on the literal-name branch. -/
theorem resolveToken_notdigit {books : List Book} {target : String}
    (hd : pyIsDigit target = false) :
    resolveToken books target =
      if books.any (fun b => b.name == some target) then .ok target
      else .notFound target := by
  unfold resolveToken
  simp [hd]

theorem deleteBlock_rangeError {env : Env} {books : List Book} {rawTarget : String}
    {n : Nat} (h : resolveToken books (pyStrip rawTarget) = .rangeError n) :
    deleteBlock env books rawTarget = (some (.exit 1), []) := by
  unfold deleteBlock
  rw [h]

theorem downloadBlock_rangeError {env : Env} {books : List Book}
    {rawTarget output : String} {n : Nat}
    (h : resolveToken books (pyStrip rawTarget) = .rangeError n) :
    downloadBlock env books rawTarget output = (some (.exit 1), []) := by
  unfold downloadBlock
  rw [h]

theorem deleteBlock_notFound {env : Env} {books : List Book} {rawTarget : String}
    {m : String} (h : resolveToken books (pyStrip rawTarget) = .notFound m) :
    deleteBlock env books rawTarget = (some (.exit 1), []) := by
  unfold deleteBlock
  rw [h]

theorem downloadBlock_notFound {env : Env} {books : List Book}
    {rawTarget output : String} {m : String}
    (h : resolveToken books (pyStrip rawTarget) = .notFound m) :
    downloadBlock env books rawTarget output = (some (.exit 1), []) := by
  unfold downloadBlock
  rw [h]

/-- An ASCII digit is not Python whitespace. -/
theorem isPySpace_false_of_digit {c : Char} (h1 : '0' ≤ c) (h2 : c ≤ '9') :
    isPySpace c = false := by
  rcases Bool.eq_false_or_eq_true (isPySpace c) with h | h
  · exfalso
    unfold isPySpace at h
    simp only [Bool.or_eq_true, decide_eq_true_eq] at h
    rcases h with ((((h | h) | h) | h) | h) | h <;> subst h <;> exact absurd h1 (by decide)
  · exact h

theorem any_name_iff (books : List Book) (target : String) :
    (books.any fun b => b.name == some target) = true ↔
      ∃ b ∈ books, b.name = some target := by
  simp

theorem baseUrlOf_nohost {env : Env} {args : Args} (hhost : args.host = none) :
    baseUrlOf env args =
      match discover_servers env with
      | [] => none
      | s :: _ => some ("http://" ++ s ++ ":" ++ toString WIFI_BOOK_PORT) := by
  unfold baseUrlOf
  rw [hhost]
  rfl

theorem mainRun_some {env : Env} {args : Args} {base_url : String}
    (h : baseUrlOf env args = some base_url) :
    mainRun env args =
      catalogPhase env base_url args.delete args.download args.output args.upload := by
  unfold mainRun
  rw [h]

theorem mainRun_nobase {env : Env} {args : Args}
    (h : baseUrlOf env args = none) :
    mainRun env args = (.exit 1, []) := by
  unfold mainRun
  rw [h]

theorem uploadLoop_cons (env : Env) (p : String) (rest : List String) :
    uploadLoop env (p :: rest) =
      (if (upload_book env (env.expanduser (pyStrip p))).1 then
        ((uploadLoop env rest).1,
          (upload_book env (env.expanduser (pyStrip p))).2 ++ (uploadLoop env rest).2)
      else (some (.exit 1), (upload_book env (env.expanduser (pyStrip p))).2)) := rfl

/-- When every upload succeeds, the loop completes and its trace is the
concatenation of the per-file upload events. -/
theorem uploadLoop_ok (env : Env) (paths : List String)
    (h : ∀ q ∈ paths, (upload_book env (env.expanduser (pyStrip q))).1 = true) :
    uploadLoop env paths =
      (none, paths.flatMap fun q => (upload_book env (env.expanduser (pyStrip q))).2) := by
  induction paths with
  | nil => rfl
  | cons q rest ih =>
    have hq := h q (List.mem_cons_self q rest)
    have ih2 := ih fun x hx => h x (List.mem_cons_of_mem q hx)
    rw [uploadLoop_cons, hq, ih2]
    simp

/-- Fail-fast shape of the upload loop: if every path of `pre` uploads
successfully and `p` fails, the loop stops at `p` with exit code 1 and a
trace containing nothing from `post`. -/
theorem uploadLoop_failfast (env : Env) (pre : List String) (p : String)
    (post : List String)
    (hpre : ∀ q ∈ pre, (upload_book env (env.expanduser (pyStrip q))).1 = true)
    (hp : (upload_book env (env.expanduser (pyStrip p))).1 = false) :
    uploadLoop env (pre ++ p :: post) =
      (some (.exit 1),
        (pre.flatMap fun q => (upload_book env (env.expanduser (pyStrip q))).2) ++
          (upload_book env (env.expanduser (pyStrip p))).2) := by
  induction pre with
  | nil =>
    rw [List.nil_append, uploadLoop_cons, hp]
    simp
  | cons q pre ih =>
    have hq := hpre q (List.mem_cons_self q pre)
    have ih2 := ih fun x hx => hpre x (List.mem_cons_of_mem q hx)
    rw [List.cons_append, uploadLoop_cons, hq, ih2]
    simp

/-- The catalog fetch always issues exactly the one cache-busted GET. -/
theorem get_book_list_events (env : Env) (base_url : String) :
    (get_book_list env base_url).2 =
      [Event.listGet (base_url ++ "/files?" ++ toString env.now_ms)] := by
  unfold get_book_list
  cases h : env.fetchResp <;> rfl

/-- Any event emitted by `upload_book` is an upload POST. -/
theorem upload_book_events (env : Env) (path : String) (ev : Event)
    (h : ev ∈ (upload_book env path).2) : ∃ nm, ev = .uploadPost nm := by
  unfold upload_book at h
  split at h
  · simp at h
  · split at h
    · simp at h
    · refine ⟨basename path, ?_⟩
      simpa using h

theorem catalogPhase_upload_fail {env : Env} {base_url : String}
    {d g : Option String} {o : String} {L : List String}
    (hne : L ≠ []) (hfail : (uploadLoop env L).1 = some (Outcome.exit 1)) :
    catalogPhase env base_url d g o (some L) =
      (.exit 1, (get_book_list env base_url).2 ++ (uploadLoop env L).2) := by
  have hT : listTruthy (some L) = true := by
    cases L with
    | nil => exact absurd rfl hne
    | cons a t => rfl
  unfold catalogPhase
  rw [hT]
  simp [hfail]

theorem catalogPhase_upload_ok_skip {env : Env} {base_url : String}
    {d g : Option String} {o : String} {L : List String}
    (hne : L ≠ []) (hempty : (get_book_list env base_url).1 = [])
    (hok : (uploadLoop env L).1 = none) :
    catalogPhase env base_url d g o (some L) =
      (.exit 0, (get_book_list env base_url).2 ++ (uploadLoop env L).2) := by
  have hT : listTruthy (some L) = true := by
    cases L with
    | nil => exact absurd rfl hne
    | cons a t => rfl
  unfold catalogPhase
  rw [hT]
  simp [hempty, hok]

theorem catalogPhase_download_only {env : Env} {base_url : String}
    {t output : String} {books : List Book}
    (hbooks : (get_book_list env base_url).1 = books) (hbne : books ≠ [])
    (ht : t ≠ "")
    (hdl : downloadBlock env books t output = (some (.exit 1), [])) :
    catalogPhase env base_url none (some t) output none =
      (.exit 1, (get_book_list env base_url).2) := by
  have hE : books.isEmpty = false := by
    cases books with
    | nil => exact absurd rfl hbne
    | cons a l => rfl
  have hTe : t.isEmpty = false := by
    cases hT : t.isEmpty
    · rfl
    · exact absurd ((String.isEmpty_iff t).mp hT) ht
  unfold catalogPhase
  simp [hbooks, hE, hTe, hdl, listTruthy, strTruthy]

/-! ## Claims -/

/-- Claim C1, counterexample.  The claim states that every token that is
not composed only of ASCII digits is resolved as a literal file name, with
a reportable "not found" error when no catalog entry matches.  The token
`"٣"` (the Arabic-Indic digit three, U+0663) is not composed of ASCII
digits and matches no entry of `demoBooks3`, yet `resolveToken` selects
the third catalog entry `c.txt`, because Python `str.isdigit` classifies
`"٣"` as a digit string and `int("٣")` is `3`. -/
theorem claim_C1_counterexample :
    ¬(∀ c ∈ "٣".toList, '0' ≤ c ∧ c ≤ '9') ∧
    (∀ b ∈ demoBooks3, b.name ≠ some "٣") ∧
    resolveToken demoBooks3 "٣" = .ok "c.txt" := by
  refine ⟨by decide, by decide, by decide⟩

/-- Claim C1, amended: tokens classified as digit strings by Python
`str.isdigit` (a strict superset of the all-ASCII-digit tokens, including
e.g. Arabic-Indic digits) are handled by the 1-based index branch; every
token not so classified is resolved as a literal file name that must
exactly (case-sensitively) match some catalog entry's name, and no match
yields the reportable "not found" error rather than a crash. -/
theorem claim_C1_amended (books : List Book) (target : String) :
    (pyIsDigit target = false →
      ((∃ b ∈ books, b.name = some target) → resolveToken books target = .ok target) ∧
      ((∀ b ∈ books, b.name ≠ some target) →
        resolveToken books target = .notFound target)) ∧
    (target ≠ "" → (∀ c ∈ target.toList, '0' ≤ c ∧ c ≤ '9') →
      pyIsDigit target = true) ∧
    (∀ k, pyIsDigit target = true → pyIntOfDigits target = some k →
      resolveToken books target =
        if 1 ≤ k ∧ k ≤ books.length then
          .ok ((books.getD (k - 1) (Book.mk none none)).name.getD "")
        else .rangeError books.length) := by
  refine ⟨?_, ?_, ?_⟩
  · intro hd
    rw [resolveToken_notdigit hd]
    constructor
    · intro hex
      rw [if_pos ((any_name_iff books target).mpr hex)]
    · intro hall
      rw [if_neg]
      intro hany
      obtain ⟨b, hb, hname⟩ := (any_name_iff books target).mp hany
      exact hall b hb hname
  · intro hne hdig
    exact pyIsDigit_of_ascii hne hdig
  · intro k hd hk
    exact resolveToken_digit hd hk

/-- Claim C1, witness for the amended theorem: the literal token
`"x.pdf"` matches no entry of the demo catalog and yields `notFound`. -/
theorem claim_C1_witness :
    resolveToken demoBooks "x.pdf" = .notFound "x.pdf" :=
  ((claim_C1_amended demoBooks "x.pdf").1 (by decide)).2 (by decide)

/-- Claim C2: on a catalog of size N, a nonempty all-ASCII-digit token is
parsed to a value `k` with no crash; `1 ≤ k ≤ N` resolves to the k-th
entry's name, while `k = 0` or `k > N` yields the reportable range error,
on which both the delete block and the download block return exit code 1
without issuing any network request. -/
theorem claim_C2 (books : List Book) (target : String) (env : Env) (out : String)
    (hne : target ≠ "") (hdig : ∀ c ∈ target.toList, '0' ≤ c ∧ c ≤ '9') :
    ∃ k, pyIntOfDigits target = some k ∧
      resolveToken books target ≠ .crash ∧
      (1 ≤ k ∧ k ≤ books.length →
        resolveToken books target =
          .ok ((books.getD (k - 1) (Book.mk none none)).name.getD "")) ∧
      (k = 0 ∨ books.length < k →
        resolveToken books target = .rangeError books.length ∧
        deleteBlock env books target = (some (.exit 1), []) ∧
        downloadBlock env books target out = (some (.exit 1), [])) := by
  obtain ⟨k, hk⟩ := pyIntOfDigits_ascii_isSome hdig
  have hd := pyIsDigit_of_ascii hne hdig
  have hres := @resolveToken_digit books target k hd hk
  have hstrip : pyStrip target = target :=
    pyStrip_eq_self fun c hc => isPySpace_false_of_digit (hdig c hc).1 (hdig c hc).2
  refine ⟨k, hk, ?_, ?_, ?_⟩
  · rw [hres]
    split <;> simp
  · intro hin
    rw [hres, if_pos hin]
  · intro hout
    have hnotin : ¬(1 ≤ k ∧ k ≤ books.length) := by omega
    have h1 : resolveToken books target = .rangeError books.length := by
      rw [hres, if_neg hnotin]
    have h1s : resolveToken books (pyStrip target) = .rangeError books.length := by
      rw [hstrip]
      exact h1
    exact ⟨h1, deleteBlock_rangeError h1s, downloadBlock_rangeError h1s⟩

/-- Claim C2, witness: the token `"0"` on the two-entry demo catalog is
rejected as out of range and the delete block exits with code 1. -/
theorem claim_C2_witness :
    resolveToken demoBooks "0" = .rangeError 2 ∧
    deleteBlock envA demoBooks "0" = (some (.exit 1), []) := by
  obtain ⟨k, hk, hcr, hin, hout⟩ := claim_C2 demoBooks "0" envA "." (by decide) (by decide)
  have h0 : pyIntOfDigits "0" = some 0 := by decide
  have hk0 : k = 0 := (Option.some.inj (h0.symm.trans hk)).symm
  obtain ⟨h1, h2, h3⟩ := hout (Or.inl hk0)
  exact ⟨h1, h2⟩

/-- Claim C3: an existing local file whose (lower-cased) name ends in one
of the allow-listed extensions proceeds to the upload POST, whose single
network event is recorded; a file whose name has any other extension makes
`upload_book` return failure with zero network events. -/
theorem claim_C3 (env : Env) (path : String) :
    (env.isfile path = true → allowedName (basename path) = true →
      upload_book env path =
        (env.uploadPostOk path, [.uploadPost (basename path)])) ∧
    (allowedName (basename path) = false →
      upload_book env path = (false, [])) := by
  constructor
  · intro hf ha
    unfold upload_book
    simp [hf, ha]
  · intro ha
    unfold upload_book
    cases hf : env.isfile path <;> simp [hf, ha]

/-- Claim C3, witness: `b.pdf` is accepted and its POST attempted;
`b.xyz` is rejected with no network event. -/
theorem claim_C3_witness :
    upload_book envA "b.pdf" = (true, [.uploadPost "b.pdf"]) ∧
    upload_book envA "b.xyz" = (false, []) :=
  ⟨(claim_C3 envA "b.pdf").1 (by decide) (by decide),
   (claim_C3 envA "b.xyz").2 (by decide)⟩

/-- Claim C4, counterexample.  The claim states that deletion proceeds if
and only if the confirmation input itself is (case-insensitively) exactly
one of `y`, `yes`, `s`, `si`, `sí`.  The input `" y "` is not — even after
lower-casing it is none of the five tokens — yet the code strips the input
first, so the delete POST is issued. -/
theorem claim_C4_counterexample :
    confirmAccepted (pyLower " y ") = false ∧
    deleteBlock envB demoBooks "a.pdf" = (none, [.deletePost "a.pdf"]) := by
  refine ⟨by decide, by decide⟩

/-- Claim C4, amended: deletion proceeds if and only if the confirmation
input, after stripping leading/trailing whitespace and lower-casing, is
exactly one of `y`, `yes`, `s`, `si`, `sí`; any other input cancels the
delete with no delete request and no error exit (the block falls
through). -/
theorem claim_C4_amended (env : Env) (books : List Book) (rawTarget name : String)
    (hres : resolveToken books (pyStrip rawTarget) = .ok name) :
    (confirmAccepted (pyLower (pyStrip env.confirmInput)) = true →
      deleteBlock env books rawTarget =
        (if env.deletePostOk name then none else some (.exit 1),
         [.deletePost name])) ∧
    (confirmAccepted (pyLower (pyStrip env.confirmInput)) = false →
      deleteBlock env books rawTarget = (none, [])) := by
  constructor
  · intro hc
    unfold deleteBlock
    rw [hres]
    simp only [hc, if_true]
    unfold delete_book
    cases hd : env.deletePostOk name <;> simp [hd]
  · intro hc
    unfold deleteBlock
    rw [hres]
    simp [hc]

/-- Claim C4, witness for the amended theorem: input `"YES"` lower-cases
to an affirmative token and the delete POST is issued. -/
theorem claim_C4_witness :
    deleteBlock envC demoBooks "a.pdf" = (none, [.deletePost "a.pdf"]) := by
  have h := (claim_C4_amended envC demoBooks "a.pdf" "a.pdf" (by decide)).1 (by decide)
  exact h

/-- Claim C5: the catalog fetch GETs the listing endpoint with the
current-milliseconds cache-busting query parameter appended, and on a
network failure or malformed JSON it returns the empty catalog (the
enumeration of outcomes is total, so no exception escapes). -/
theorem claim_C5 (env : Env) (base_url : String) :
    (get_book_list env base_url).2 =
      [.listGet (base_url ++ "/files?" ++ toString env.now_ms)] ∧
    (env.fetchResp = .reqError → (get_book_list env base_url).1 = []) ∧
    (env.fetchResp = .parseError → (get_book_list env base_url).1 = []) ∧
    (∀ books, env.fetchResp = .ok books →
      (get_book_list env base_url).1 = books) := by
  unfold get_book_list
  cases h : env.fetchResp <;> simp

/-- Claim C5, witness: with a failing listing GET the catalog is empty and
the one request carried the cache-buster `?1234`. -/
theorem claim_C5_witness :
    (get_book_list envD BASE_URL).1 = [] ∧
    (get_book_list envD BASE_URL).2 =
      [.listGet "http://192.168.1.196:8080/files?1234"] := by
  have h := claim_C5 envD BASE_URL
  refine ⟨h.2.1 (by decide), ?_⟩
  rw [h.1]
  decide

/-- Claim C6: a probed candidate is confirmed iff its root-path response
has status 200 and its body contains the fixed fingerprint; the returned
collection is a permutation of the confirmed candidates, sorted
lexicographically; with no `--host`, an empty discovery result makes the
run exit with code 1 (before any further network call), and otherwise the
head of the result — its lexicographic minimum — becomes the active
endpoint. -/
theorem claim_C6 (env : Env) (args : Args) :
    (∀ ip, _check_host env.probe ip = some ip ↔
      ∃ r, env.probe ip = some r ∧ r.status = 200 ∧
        strContains r.body "WiFi Book Transfer" = true) ∧
    (discover_servers env).Perm
      ((_get_subnet_ips env.localIp).filterMap (_check_host env.probe)) ∧
    List.Sorted (· ≤ ·) (discover_servers env) ∧
    (args.host = none →
      (discover_servers env = [] → mainRun env args = (.exit 1, [])) ∧
      (∀ s rest, discover_servers env = s :: rest →
        (∀ x ∈ discover_servers env, s ≤ x) ∧
        mainRun env args =
          catalogPhase env ("http://" ++ s ++ ":" ++ toString WIFI_BOOK_PORT)
            args.delete args.download args.output args.upload)) := by
  have htrans : ∀ (a b c : String), decide (a ≤ b) = true → decide (b ≤ c) = true →
      decide (a ≤ c) = true := fun a b c h1 h2 =>
    decide_eq_true (le_trans (of_decide_eq_true h1) (of_decide_eq_true h2))
  have htotal : ∀ (a b : String), (decide (a ≤ b) || decide (b ≤ a)) = true := by
    intro a b
    rcases le_total a b with h | h <;> simp [h]
  have hsorted : List.Sorted (· ≤ ·) (discover_servers env) := by
    unfold discover_servers
    have hp := @List.sorted_mergeSort String (fun a b => decide (a ≤ b)) htrans htotal
      ((_get_subnet_ips env.localIp).filterMap (_check_host env.probe))
    exact hp.imp fun h => of_decide_eq_true h
  refine ⟨?_, List.mergeSort_perm _ _, hsorted, ?_⟩
  · intro ip
    cases hp : env.probe ip with
    | none =>
      have hred : _check_host env.probe ip = none := by
        unfold _check_host
        rw [hp]
      rw [hred]
      simp
    | some r =>
      have hred : _check_host env.probe ip =
          if r.status = 200 ∧ strContains r.body "WiFi Book Transfer" = true
          then some ip else none := by
        unfold _check_host
        rw [hp]
      rw [hred]
      by_cases hcond : r.status = 200 ∧ strContains r.body "WiFi Book Transfer" = true
      · rw [if_pos hcond]
        simp [hcond.1, hcond.2]
      · rw [if_neg hcond]
        constructor
        · intro h
          simp at h
        · rintro ⟨r2, hr2, hst, hfp⟩
          cases Option.some.inj hr2
          exact absurd ⟨hst, hfp⟩ hcond
  · intro hhost
    have hbase := @baseUrlOf_nohost env args hhost
    constructor
    · intro hnil
      apply mainRun_nobase
      rw [hbase, hnil]
    · intro s rest hcons
      constructor
      · intro x hx
        rw [hcons] at hx
        rcases List.mem_cons.mp hx with rfl | hx2
        · exact le_refl x
        · exact (List.sorted_cons.mp (hcons ▸ hsorted)).1 x hx2
      · apply mainRun_some
        rw [hbase, hcons]

/-- Claim C6, witness: under the demo probe oracle, the candidate
`10.0.0.3` — whose response is 200 with the fingerprint in the body — is
confirmed. -/
theorem claim_C6_witness :
    _check_host envA.probe "10.0.0.3" = some "10.0.0.3" :=
  ((claim_C6 envA argsA).1 "10.0.0.3").mpr
    ⟨ProbeResp.mk 200 "<html>WiFi Book Transfer</html>", by decide, by decide, by decide⟩

/-- Claim C7: upload paths are attempted in the given order; when every
path of `pre` succeeds and `p` fails, the loop stops at `p` with exit
code 1, the trace contains nothing from `post`, and the whole run ends
with exit code 1 and a trace containing no delete or download event. -/
theorem claim_C7 (env : Env) (args : Args) (pre post : List String) (p : String)
    (hpre : ∀ q ∈ pre, (upload_book env (env.expanduser (pyStrip q))).1 = true)
    (hp : (upload_book env (env.expanduser (pyStrip p))).1 = false) :
    uploadLoop env (pre ++ p :: post) =
      (some (.exit 1),
        (pre.flatMap fun q => (upload_book env (env.expanduser (pyStrip q))).2) ++
          (upload_book env (env.expanduser (pyStrip p))).2) ∧
    (args.upload = some (pre ++ p :: post) →
      ∀ base_url, baseUrlOf env args = some base_url →
        mainRun env args =
          (.exit 1, (get_book_list env base_url).2 ++
            ((pre.flatMap fun q => (upload_book env (env.expanduser (pyStrip q))).2) ++
              (upload_book env (env.expanduser (pyStrip p))).2))) := by
  have hloop := uploadLoop_failfast env pre p post hpre hp
  refine ⟨hloop, ?_⟩
  intro hup base_url hbase
  rw [mainRun_some hbase, hup,
    catalogPhase_upload_fail (by simp) (by rw [hloop]), hloop]

/-- Claim C7, witness: of the three requested uploads, the first
succeeds, the second has an unsupported extension and fails, and the run
ends with exit 1 having only listed the catalog and attempted the first
upload. -/
theorem claim_C7_witness :
    mainRun envA argsU =
      (.exit 1, [.listGet "http://192.168.1.196:8080/files?1234",
        .uploadPost "ok1.pdf"]) := by
  have h := (claim_C7 envA argsU ["ok1.pdf"] ["never.pdf"] "bad.xyz"
    (by decide) (by decide)).2 rfl "http://192.168.1.196:8080" (by decide)
  rw [h]
  decide

/-- Claim C8: when the token resolves but the expanded output directory
does not exist, the download block returns exit code 1 with no network
event, and a run requesting only that download ends with exit code 1
having issued only the catalog GET (no download request; the model
contains no directory-creating effect). -/
theorem claim_C8 (env : Env) (books : List Book) (rawTarget output name : String)
    (hres : resolveToken books (pyStrip rawTarget) = .ok name)
    (hdir : env.isdir (env.expanduser output) = false) :
    downloadBlock env books rawTarget output = (some (.exit 1), []) ∧
    (∀ args base_url, args.download = some rawTarget → rawTarget ≠ "" →
      args.upload = none → args.delete = none → args.output = output →
      baseUrlOf env args = some base_url →
      (get_book_list env base_url).1 = books → books ≠ [] →
      mainRun env args = (.exit 1, (get_book_list env base_url).2)) := by
  have hblock : downloadBlock env books rawTarget output = (some (.exit 1), []) := by
    unfold downloadBlock
    rw [hres]
    simp [hdir]
  refine ⟨hblock, ?_⟩
  intro args base_url hdl hne hu hd ho hbase hbooks hbne
  rw [mainRun_some hbase, hdl, hu, hd, ho]
  exact catalogPhase_download_only hbooks hbne hne hblock

/-- Claim C8, witness: download token `"1"` resolves to `a.pdf` but the
output directory `out` does not exist, so the run exits with code 1 after
only the catalog GET. -/
theorem claim_C8_witness :
    mainRun envF argsD = (.exit 1, [.listGet "http://192.168.1.196:8080/files?1234"]) := by
  have h := (claim_C8 envF demoBooks "1" "out" "a.pdf" (by decide) (by decide)).2
    argsD "http://192.168.1.196:8080" rfl (by decide) rfl rfl rfl (by decide)
    (by decide) (by decide)
  rw [h]
  decide

/-- Claim C9: with a local outbound IP of four dot-separated parts, the
candidate list is exactly the 254 host addresses `.1` … `.254` of the
containing /24 subnet; when the local IP cannot be determined, the
candidates are the fixed 508 addresses `192.168.{0,1}.{1..254}`. -/
theorem claim_C9 (ip : String) (parts : List String)
    (hsplit : pySplitDot ip = parts) (h4 : parts.length = 4) :
    _get_subnet_ips (some ip) =
      (List.range' 1 254).map
        (fun i => joinDots (parts.take 3) ++ "." ++ toString i) ∧
    (_get_subnet_ips (some ip)).length = 254 ∧
    (∀ s, s ∈ _get_subnet_ips (some ip) ↔
      ∃ i, 1 ≤ i ∧ i ≤ 254 ∧ s = joinDots (parts.take 3) ++ "." ++ toString i) ∧
    (_get_subnet_ips none).length = 508 ∧
    (∀ s, s ∈ _get_subnet_ips none ↔
      ∃ a, (a = 0 ∨ a = 1) ∧ ∃ b, 1 ≤ b ∧ b ≤ 254 ∧
        s = "192.168." ++ toString a ++ "." ++ toString b) := by
  have h1 : _get_subnet_ips (some ip) =
      (List.range' 1 254).map
        (fun i => joinDots (parts.take 3) ++ "." ++ toString i) := by
    show (if (pySplitDot ip).length ≠ 4 then []
      else (List.range' 1 254).map
        (fun i => joinDots ((pySplitDot ip).take 3) ++ "." ++ toString i)) = _
    rw [hsplit, if_neg (by simp [h4])]
  refine ⟨h1, ?_, ?_, ?_, ?_⟩
  · rw [h1]
    simp
  · intro s
    rw [h1]
    constructor
    · intro hs
      obtain ⟨m, hm, rfl⟩ := List.mem_map.mp hs
      obtain ⟨i, hi, rfl⟩ := List.mem_range'.mp hm
      exact ⟨1 + 1 * i, by omega, by omega, rfl⟩
    · rintro ⟨i, hi1, hi2, rfl⟩
      exact List.mem_map.mpr ⟨i, List.mem_range'.mpr ⟨i - 1, by omega, by omega⟩, rfl⟩
  · unfold _get_subnet_ips
    simp
  · intro s
    show s ∈ ([0, 1].flatMap fun a =>
      (List.range' 1 254).map fun b =>
        "192.168." ++ toString a ++ "." ++ toString b) ↔ _
    constructor
    · intro hs
      obtain ⟨a, ha, hs2⟩ := List.mem_flatMap.mp hs
      obtain ⟨m, hm, rfl⟩ := List.mem_map.mp hs2
      obtain ⟨i, hi, rfl⟩ := List.mem_range'.mp hm
      refine ⟨a, ?_, 1 + 1 * i, by omega, by omega, rfl⟩
      simpa using ha
    · rintro ⟨a, ha, b, hb1, hb2, rfl⟩
      refine List.mem_flatMap.mpr ⟨a, ?_, ?_⟩
      · simpa using ha
      · exact List.mem_map.mpr ⟨b, List.mem_range'.mpr ⟨b - 1, by omega, by omega⟩, rfl⟩

/-- Claim C9, witness: from local IP `10.1.2.33` the scan covers exactly
254 candidates, among them `10.1.2.254`. -/
theorem claim_C9_witness :
    (_get_subnet_ips (some "10.1.2.33")).length = 254 ∧
    "10.1.2.254" ∈ _get_subnet_ips (some "10.1.2.33") := by
  have h := claim_C9 "10.1.2.33" ["10", "1", "2", "33"] (by decide) (by decide)
  exact ⟨h.2.1, (h.2.2.1 "10.1.2.254").mpr ⟨254, by decide, by decide, by decide⟩⟩

/-- Claim C10 (implicit behavior): with an empty fetched catalog but a
nonempty upload list whose uploads all succeed, the run does not take the
"no books" exit; any delete or download token in the same invocation is
silently skipped — its block never runs, no delete or download request is
issued — and the process exits with code 0. -/
theorem claim_C10 (env : Env) (args : Args) (L : List String) (base_url : String)
    (hbase : baseUrlOf env args = some base_url)
    (hempty : (get_book_list env base_url).1 = [])
    (hup : args.upload = some L) (hne : L ≠ [])
    (hok : ∀ q ∈ L, (upload_book env (env.expanduser (pyStrip q))).1 = true) :
    mainRun env args =
      (.exit 0, (get_book_list env base_url).2 ++
        (L.flatMap fun q => (upload_book env (env.expanduser (pyStrip q))).2)) ∧
    (∀ n, Event.deletePost n ∉ (mainRun env args).2) ∧
    (∀ n, Event.downloadGet n ∉ (mainRun env args).2) := by
  have hloop := uploadLoop_ok env L hok
  have hmain : mainRun env args =
      (.exit 0, (get_book_list env base_url).2 ++
        (L.flatMap fun q => (upload_book env (env.expanduser (pyStrip q))).2)) := by
    rw [mainRun_some hbase, hup,
      catalogPhase_upload_ok_skip hne hempty (by rw [hloop]), hloop]
  refine ⟨hmain, ?_, ?_⟩ <;> intro n hmem <;> rw [hmain] at hmem <;>
    simp only [get_book_list_events] at hmem <;>
    rcases List.mem_append.mp hmem with h | h
  · simp at h
  · obtain ⟨q, hq, hev⟩ := List.mem_flatMap.mp h
    obtain ⟨nm, hnm⟩ := upload_book_events env (env.expanduser (pyStrip q)) _ hev
    cases hnm
  · simp at h
  · obtain ⟨q, hq, hev⟩ := List.mem_flatMap.mp h
    obtain ⟨nm, hnm⟩ := upload_book_events env (env.expanduser (pyStrip q)) _ hev
    cases hnm

/-- Claim C10, witness: empty catalog, one successful upload, and both a
delete token (`99`) and a download token (`nonexistent.pdf`) that are
silently skipped; the run exits with code 0 after only the catalog GET and
the upload POST. -/
theorem claim_C10_witness :
    mainRun envG argsG =
      (.exit 0, [.listGet "http://192.168.1.196:8080/files?1234",
        .uploadPost "ok1.pdf"]) := by
  have h := (claim_C10 envG argsG ["ok1.pdf"] "http://192.168.1.196:8080"
    (by decide) (by decide) rfl (by decide) (by decide)).1
  rw [h]
  decide

end WifiBook
